import Mathlib

/-!
Verification of the K-means binding layer in
`src/python/sparktk/models/kmeans.py`.

The file shallowly embeds the Python module: Python values that flow through
the wrapper are modelled by the inductive type `Val` (covering `None`,
numbers, strings, native lists, and the bridge-side representations: string
vectors, double vectors, generic engine sequences, and the engine option
type).  The external Scala engine is kept abstract: the engine-side model
object and the engine-side training entry point are structures of functions,
so the theorems quantify over every possible engine behaviour, and a
concrete mock instantiates them for witnesses.  Fallible steps (type
conversions, remote calls) live in `Except Err`; a Python method that can
mutate `self` is embedded with an explicit result state, so immutability is
a provable statement rather than an artefact of the encoding.
-/

/-- Python/bridge values flowing through the wrapper. `obj` stands for an
opaque engine-side handle (for instance a frame's backing object). -/
inductive Val where
  | none
  | int (n : Int)
  | long (n : Int)
  | num (q : Rat)
  | str (s : String)
  | obj (n : Nat)
  | list (xs : List Val)
  | vecString (xs : List String)
  | vecDouble (xs : List Rat)
  | vec (xs : List Val)
  | opt (o : Option Val)

/-- The Python test `x is None` (identity with the `None` singleton). -/
def Val.isNone : Val → Bool
  | Val.none => true
  | _ => false

/-- Failures: an engine-side exception (tagged by a code) or a Python-side
type error raised by a conversion. -/
inductive Err where
  | engineErr (n : Nat)
  | typeErr (n : Nat)
deriving DecidableEq

/-- Python truthiness, as used by `scalings or [1 for i in xrange(k)]`:
`None`, zero numbers, empty strings and empty lists are falsy; bridge
objects (which define neither `__bool__` nor `__len__`) are truthy. -/
def pyTruthy : Val → Bool
  | Val.none => false
  | Val.int n => n ≠ 0
  | Val.long n => n ≠ 0
  | Val.num q => q ≠ 0
  | Val.str s => s ≠ ""
  | Val.list xs => !xs.isEmpty
  | Val.obj _ => true
  | Val.vecString _ => true
  | Val.vecDouble _ => true
  | Val.vec _ => true
  | Val.opt _ => true

/-- Truncation of a rational toward zero, the rounding Python `long()` and
`int()` apply to floats. -/
def ratTrunc (q : Rat) : Int :=
  if 0 ≤ q then ⌊q⌋ else ⌈q⌉

/-- Python `long(x)`: integers widen, floats truncate, anything else raises
`TypeError`. -/
def pyLongFn : Val → Except Err Val
  | Val.int n => Except.ok (Val.long n)
  | Val.long n => Except.ok (Val.long n)
  | Val.num q => Except.ok (Val.long (ratTrunc q))
  | _ => Except.error (Err.typeErr 0)

/-- Python `int(x)` on the values the engine can hand back as counts. -/
def pyIntFn : Val → Except Err Val
  | Val.int n => Except.ok (Val.int n)
  | Val.long n => Except.ok (Val.int n)
  | Val.num q => Except.ok (Val.int (ratTrunc q))
  | _ => Except.error (Err.typeErr 1)

/-- Python iteration over a value (as done by `list(x)` and by a list
comprehension): native lists and bridge sequences yield their elements,
anything else raises `TypeError`. -/
def pyIter : Val → Except Err (List Val)
  | Val.list xs => Except.ok xs
  | Val.vec xs => Except.ok xs
  | Val.vecString xs => Except.ok (xs.map Val.str)
  | Val.vecDouble xs => Except.ok (xs.map Val.num)
  | _ => Except.error (Err.typeErr 2)

/-- One element of a string-vector conversion: the element must be a
string. -/
def strOf : Val → Except Err String
  | Val.str s => Except.ok s
  | _ => Except.error (Err.typeErr 3)

/-- One element of a double-vector conversion: the element must be
numeric. -/
def ratOf : Val → Except Err Rat
  | Val.int n => Except.ok (n : Rat)
  | Val.long n => Except.ok (n : Rat)
  | Val.num q => Except.ok q
  | _ => Except.error (Err.typeErr 4)

/-- Elementwise string extraction from a Python list. -/
def strList : List Val → Except Err (List String)
  | [] => Except.ok []
  | v :: vs => do
      let s ← strOf v
      let ss ← strList vs
      pure (s :: ss)

/-- Elementwise numeric extraction from a Python list. -/
def ratList : List Val → Except Err (List Rat)
  | [] => Except.ok []
  | v :: vs => do
      let q ← ratOf v
      let qs ← ratList vs
      pure (q :: qs)

/-- The comprehension `[int(n) for n in xs]`. -/
def intList : List Val → Except Err (List Val)
  | [] => Except.ok []
  | v :: vs => do
      let n ← pyIntFn v
      let ns ← intList vs
      pure (n :: ns)

/-- The comprehension `[list(item) for item in xs]`. -/
def listEach : List Val → Except Err (List Val)
  | [] => Except.ok []
  | v :: vs => do
      let xs ← pyIter v
      let rest ← listEach vs
      pure (Val.list xs :: rest)

/-- Modelled from the spec: the context's conversion utility
`jutils.convert.to_scala_option` (its code is not under `src/`).  Per the
spec's external-interface contract, `None` becomes the engine's empty
option and any other value is wrapped in a non-empty option. -/
def to_scala_option : Val → Val
  | Val.none => Val.opt Option.none
  | v => Val.opt (Option.some v)

/-- Modelled from the spec: `jutils.convert.to_scala_vector_string` (its
code is not under `src/`): a Python list of strings becomes the engine's
vector of strings; anything else raises. -/
def to_scala_vector_string : Val → Except Err Val
  | Val.list xs => do
      let ss ← strList xs
      pure (Val.vecString ss)
  | _ => Except.error (Err.typeErr 5)

/-- Modelled from the spec: `jutils.convert.to_scala_vector_double` (its
code is not under `src/`): a Python list of numbers becomes the engine's
vector of doubles; anything else raises. -/
def to_scala_vector_double : Val → Except Err Val
  | Val.list xs => do
      let qs ← ratList xs
      pure (Val.vecDouble qs)
  | _ => Except.error (Err.typeErr 6)

/-- Line 13 of the source, `seed = seed if seed is None else long(seed)`:
keep `None`, otherwise apply Python `long`. -/
def seedToLong (seed : Val) : Except Err Val :=
  if seed.isNone then pure seed else pyLongFn seed

/-- Lines 68-69 (and 74-75): `if columns is not None: columns =
to_scala_vector_string(columns)` — a non-`None` columns list is converted
to a string vector, `None` is kept. -/
def marshalColumns (columns : Val) : Except Err Val :=
  if columns.isNone then pure columns else to_scala_vector_string columns

/-- A distributed frame: the wrapper only ever reads its engine-side
handle `_scala`. -/
structure Frame where
  _scala : Val

/-- The engine-side trained-model object (`self._scala`): one abstract
function per remote method the wrapper calls.  Zero-argument queries take
`Unit`; the four dataset operations take the frame handle and the
marshalled optional-column argument and may fail. -/
structure ScalaModel where
  k : Unit → Val
  maxIterations : Unit → Val
  initializationMode : Unit → Val
  centroids : Unit → Val
  computeClusterSizes : Val → Val → Except Err Val
  computeCost : Val → Val → Except Err Val
  predict : Val → Val → Except Err Val
  addDistanceColumns : Val → Val → Except Err Val

/-- The engine-side training entry point
(`tk_context.sc._jvm.org.trustedanalytics.at.models.kmeans.KMeans`), with
the argument order of the remote `train` call: frame handle, column
vector, scaling vector, k, max_iter, epsilon, seed option, init_mode. -/
structure ScalaKMeans where
  train : Val → Val → Val → Int → Int → Rat → Val → String → Except Err ScalaModel

/-- The execution context: the wrapper reaches the engine's training class
through it (the conversion utilities it also exposes are the fixed
functions above). -/
structure TkContext where
  jvmKMeans : ScalaKMeans

/-- The model handle built by `KMeansModel.__init__`: the context, the
cached Python column and scaling lists, and the engine model reference. -/
structure KMeansModel where
  _context : TkContext
  _columns : Val
  _scalings : Val
  _scala : ScalaModel

/-- `KMeans.train`, line for line: default the scalings by truthiness,
convert columns and scalings to engine vectors, convert the seed with
`long` unless it is `None`, wrap it in an engine option, call the remote
`train`, and wrap the result with the original Python columns/scalings. -/
def KMeans.train (tk_context : TkContext) (frame : Frame) (columns : Val)
    (scalings : Val) (k : Int) (max_iter : Int) (epsilon : Rat)
    (seed : Val) (init_mode : String) : Except Err KMeansModel := do
  let scalings := if pyTruthy scalings then scalings
                  else Val.list (List.replicate k.toNat (Val.int 1))
  let scala_columns ← to_scala_vector_string columns
  let scala_scalings ← to_scala_vector_double scalings
  let seed ← seedToLong seed
  let scala_seed := to_scala_option seed
  let scala_model ← tk_context.jvmKMeans.train frame._scala scala_columns
      scala_scalings k max_iter epsilon scala_seed init_mode
  pure (KMeansModel.mk tk_context columns scalings scala_model)

/-- Property `columns`: returns the cached list; the second component is
`self` after the access (never modified). -/
def KMeansModel.columns (m : KMeansModel) : Val × KMeansModel :=
  (m._columns, m)

/-- Property `scalings`: returns the cached list. -/
def KMeansModel.scalings (m : KMeansModel) : Val × KMeansModel :=
  (m._scalings, m)

/-- Property `k`: forwards the zero-argument query `self._scala.k()`. -/
def KMeansModel.k (m : KMeansModel) : Val × KMeansModel :=
  (m._scala.k (), m)

/-- Property `max_iterations`: forwards `self._scala.maxIterations()`. -/
def KMeansModel.max_iterations (m : KMeansModel) : Val × KMeansModel :=
  (m._scala.maxIterations (), m)

/-- Property `initialization_mode`: forwards
`self._scala.initializationMode()`. -/
def KMeansModel.initialization_mode (m : KMeansModel) : Val × KMeansModel :=
  (m._scala.initializationMode (), m)

/-- Property `centroids`:
`[list(item) for item in list(self._scala.centroids())]`. -/
def KMeansModel.centroids (m : KMeansModel) : Except Err (Val × KMeansModel) := do
  let items ← pyIter (m._scala.centroids ())
  let xs ← listEach items
  pure (Val.list xs, m)

/-- `compute_sizes`: wraps `columns` with `to_scala_option` (note: no
string-vector conversion first), calls the engine, and converts each
returned count with `int`. -/
def KMeansModel.compute_sizes (m : KMeansModel) (frame : Frame)
    (columns : Val) : Except Err (Val × KMeansModel) := do
  let r ← m._scala.computeClusterSizes frame._scala (to_scala_option columns)
  let items ← pyIter r
  let xs ← intList items
  pure (Val.list xs, m)

/-- `compute_wsse`: wraps `columns` with `to_scala_option` (again with no
string-vector conversion) and returns the engine's answer unchanged. -/
def KMeansModel.compute_wsse (m : KMeansModel) (frame : Frame)
    (columns : Val) : Except Err (Val × KMeansModel) := do
  let r ← m._scala.computeCost frame._scala (to_scala_option columns)
  pure (r, m)

/-- `predict`: converts a non-`None` `columns` to a string vector, wraps it
in an option, calls the engine, and returns `None` (the Python method has
no `return`). -/
def KMeansModel.predict (m : KMeansModel) (frame : Frame)
    (columns : Val) : Except Err (Val × KMeansModel) := do
  let columns ← marshalColumns columns
  let c := to_scala_option columns
  let _ ← m._scala.predict frame._scala c
  pure (Val.none, m)

/-- `add_distance_columns`: same marshalling as `predict`, forwarding to
`addDistanceColumns`, and returns `None`. -/
def KMeansModel.add_distance_columns (m : KMeansModel) (frame : Frame)
    (columns : Val) : Except Err (Val × KMeansModel) := do
  let columns ← marshalColumns columns
  let c := to_scala_option columns
  let _ ← m._scala.addDistanceColumns frame._scala c
  pure (Val.none, m)

/-! ### Helper lemmas about the embedding -/

/-- Inversion for a successful `Except` bind. -/
theorem except_bind_ok {α β : Type} (x : Except Err α) (f : α → Except Err β)
    (b : β) (h : x >>= f = Except.ok b) :
    ∃ a, x = Except.ok a ∧ f a = Except.ok b := by
  cases x with
  | ok a => exact ⟨a, rfl, h⟩
  | error e => simp [Bind.bind, Except.bind] at h

/-- A failing first step fails the whole bind. -/
theorem except_bind_error {α β : Type} (x : Except Err α) (f : α → Except Err β)
    (e : Err) (h : x = Except.error e) :
    x >>= f = Except.error e := by
  subst h
  rfl

/-- `to_scala_option` on anything other than `None` wraps the value. -/
theorem to_scala_option_not_none (c : Val) (h : c.isNone = false) :
    to_scala_option c = Val.opt (Option.some c) := by
  cases c
  case none => simp [Val.isNone] at h
  all_goals rfl

/-- `strList` succeeds on a list of string values and returns the raw
strings. -/
theorem strList_map (names : List String) :
    strList (names.map Val.str) = Except.ok names := by
  induction names with
  | nil => rfl
  | cons a t ih => simp [strList, strOf, ih, Bind.bind, Except.bind, Pure.pure, Except.pure]

/-- `ratList` succeeds on a list of float values and returns the raw
rationals. -/
theorem ratList_map (qs : List Rat) :
    ratList (qs.map Val.num) = Except.ok qs := by
  induction qs with
  | nil => rfl
  | cons a t ih => simp [ratList, ratOf, ih, Bind.bind, Except.bind, Pure.pure, Except.pure]

/-- `intList` turns a list of engine longs into native ints. -/
theorem intList_map_long (ns : List Int) :
    intList (ns.map Val.long) = Except.ok (ns.map Val.int) := by
  induction ns with
  | nil => rfl
  | cons a t ih => simp [intList, pyIntFn, ih, Bind.bind, Except.bind, Pure.pure, Except.pure]

/-- `listEach` turns a list of engine vectors into native lists. -/
theorem listEach_map_vec (rows : List (List Val)) :
    listEach (rows.map Val.vec) = Except.ok (rows.map Val.list) := by
  induction rows with
  | nil => rfl
  | cons a t ih => simp [listEach, pyIter, ih, Bind.bind, Except.bind, Pure.pure, Except.pure]

/-! ### Concrete engine mocks used by witnesses and counterexamples -/

/-- A mock engine model: reports `k = 3`, echoes the optional-column
argument it receives from `computeCost`, and returns two cluster counts
from `computeClusterSizes`. -/
def mockScalaModel : ScalaModel :=
  ScalaModel.mk
    (fun _ => Val.int 3)
    (fun _ => Val.int 20)
    (fun _ => Val.str "k-means||")
    (fun _ => Val.vec [Val.vec [Val.num 0, Val.num 1], Val.vec [Val.num 2, Val.num 3]])
    (fun _ _ => Except.ok (Val.vec [Val.long 4, Val.long 5]))
    (fun _ c => Except.ok c)
    (fun _ _ => Except.ok Val.none)
    (fun _ _ => Except.ok Val.none)

/-- A mock engine model whose four dataset operations all fail. -/
def failScalaModel : ScalaModel :=
  ScalaModel.mk
    (fun _ => Val.int 3)
    (fun _ => Val.int 20)
    (fun _ => Val.str "k-means||")
    (fun _ => Val.vec [])
    (fun _ _ => Except.error (Err.engineErr 11))
    (fun _ _ => Except.error (Err.engineErr 12))
    (fun _ _ => Except.error (Err.engineErr 13))
    (fun _ _ => Except.error (Err.engineErr 14))

/-- A mock frame handle. -/
def mockFrame : Frame := Frame.mk (Val.obj 0)

/-- A context whose engine training call always succeeds with
`mockScalaModel`. -/
def okCtx : TkContext :=
  TkContext.mk (ScalaKMeans.mk (fun _ _ _ _ _ _ _ _ => Except.ok mockScalaModel))

/-- A context whose engine training call always fails. -/
def failCtx : TkContext :=
  TkContext.mk (ScalaKMeans.mk (fun _ _ _ _ _ _ _ _ => Except.error (Err.engineErr 10)))

/-- A model handle over the echoing mock engine model. -/
def mockKM : KMeansModel :=
  KMeansModel.mk okCtx (Val.list [Val.str "x"]) (Val.list [Val.int 1]) mockScalaModel

/-- A model handle over the failing mock engine model. -/
def failKM : KMeansModel :=
  KMeansModel.mk okCtx (Val.list [Val.str "x"]) (Val.list [Val.int 1]) failScalaModel

/-- Inverting a successful `KMeans.train`: the conversions and the engine
call all succeeded, and the handle's fields are the context, the original
columns, the truthiness-defaulted scalings, and the engine's model. -/
theorem train_ok_fields (ctx : TkContext) (f : Frame) (cols scal : Val)
    (k mi : Int) (eps : Rat) (seed : Val) (im : String) (m : KMeansModel)
    (h : KMeans.train ctx f cols scal k mi eps seed im = Except.ok m) :
    m._context = ctx ∧ m._columns = cols ∧
    m._scalings = (if pyTruthy scal then scal
                   else Val.list (List.replicate k.toNat (Val.int 1))) ∧
    ∃ sc ss sv, to_scala_vector_string cols = Except.ok sc ∧
      to_scala_vector_double (if pyTruthy scal then scal
        else Val.list (List.replicate k.toNat (Val.int 1))) = Except.ok ss ∧
      seedToLong seed = Except.ok sv ∧
      ctx.jvmKMeans.train f._scala sc ss k mi eps (to_scala_option sv) im =
        Except.ok m._scala := by
  simp only [KMeans.train] at h
  obtain ⟨sc, hsc, h⟩ := except_bind_ok _ _ _ h
  obtain ⟨ss, hss, h⟩ := except_bind_ok _ _ _ h
  obtain ⟨sv, hsv, h⟩ := except_bind_ok _ _ _ h
  obtain ⟨sm, hsm, h⟩ := except_bind_ok _ _ _ h
  simp only [Pure.pure, Except.pure, Except.ok.injEq] at h
  subst h
  exact ⟨rfl, rfl, rfl, sc, ss, sv, hsc, hss, hsv, hsm⟩

/-! ### Claims -/

/-- Claim C2: for every call to each of the four model operations with
`columns = None`, the argument forwarded to the engine is the engine's
empty-optional value, i.e. the result of `to_scala_option None`. -/
theorem claim_C2_none_forwards_empty_option (m : KMeansModel) (f : Frame) :
    (KMeansModel.compute_sizes m f Val.none = (do
        let r ← m._scala.computeClusterSizes f._scala (Val.opt Option.none)
        let items ← pyIter r
        let xs ← intList items
        pure (Val.list xs, m))) ∧
    (KMeansModel.compute_wsse m f Val.none = (do
        let r ← m._scala.computeCost f._scala (Val.opt Option.none)
        pure (r, m))) ∧
    (KMeansModel.predict m f Val.none = (do
        let _ ← m._scala.predict f._scala (Val.opt Option.none)
        pure (Val.none, m))) ∧
    (KMeansModel.add_distance_columns m f Val.none = (do
        let _ ← m._scala.addDistanceColumns f._scala (Val.opt Option.none)
        pure (Val.none, m))) :=
  ⟨rfl, rfl, rfl, rfl⟩

/-- Claim C3: training with unspecified (`None`) scalings uses, and caches
in the handle, the default `[1]*k`, whatever the columns are; the
`scalings` property then returns that list. -/
theorem claim_C3_default_scalings (ctx : TkContext) (f : Frame) (cols : Val)
    (k mi : Int) (eps : Rat) (seed : Val) (im : String) (m : KMeansModel)
    (h : KMeans.train ctx f cols Val.none k mi eps seed im = Except.ok m) :
    (KMeansModel.scalings m).1 = Val.list (List.replicate k.toNat (Val.int 1)) := by
  obtain ⟨-, -, hs, -⟩ := train_ok_fields ctx f cols Val.none k mi eps seed im m h
  simpa [KMeansModel.scalings, pyTruthy] using hs

/-- Claim C3 witness: the spec's scenario — `k = 3`, no explicit scalings,
an engine mock reporting `k() = 3` — yields cached scalings `[1,1,1]` and a
`k` property equal to 3. -/
theorem claim_C3_default_scalings_witness :
    (KMeansModel.scalings (KMeansModel.mk okCtx (Val.list [Val.str "x"])
        (Val.list (List.replicate (Int.toNat 3) (Val.int 1))) mockScalaModel)).1 =
      Val.list (List.replicate (Int.toNat 3) (Val.int 1)) ∧
    (KMeansModel.k (KMeansModel.mk okCtx (Val.list [Val.str "x"])
        (Val.list (List.replicate (Int.toNat 3) (Val.int 1))) mockScalaModel)).1 =
      Val.int 3 ∧
    Val.list (List.replicate (Int.toNat 3) (Val.int 1)) =
      Val.list [Val.int 1, Val.int 1, Val.int 1] :=
  ⟨claim_C3_default_scalings okCtx mockFrame (Val.list [Val.str "x"])
      3 20 0 Val.none "k-means||" _ rfl, rfl, rfl⟩

/-- Claim C9: an explicitly supplied empty scalings list is
indistinguishable from `None` — `train` with `scalings = []` is the very
same computation as `train` with `scalings = None` (the default is chosen
by truthiness), so the empty list is replaced by `[1]*k` and never reaches
the engine. -/
theorem claim_C9_empty_scalings_like_none (ctx : TkContext) (f : Frame)
    (cols : Val) (k mi : Int) (eps : Rat) (seed : Val) (im : String) :
    (KMeans.train ctx f cols (Val.list []) k mi eps seed im =
      KMeans.train ctx f cols Val.none k mi eps seed im) ∧
    (∀ m, KMeans.train ctx f cols (Val.list []) k mi eps seed im = Except.ok m →
      m._scalings = Val.list (List.replicate k.toNat (Val.int 1))) := by
  constructor
  · rfl
  · intro m h
    obtain ⟨-, -, hs, -⟩ :=
      train_ok_fields ctx f cols (Val.list []) k mi eps seed im m h
    simpa [pyTruthy] using hs

/-- Claim C9 witness: at a concrete call with `k = 2`, `train` with
`scalings = []` coincides with `train` with `scalings = None`, and the
handle caches `[1,1]`. -/
theorem claim_C9_empty_scalings_like_none_witness :
    (KMeans.train okCtx mockFrame (Val.list [Val.str "x"]) (Val.list [])
        2 20 0 Val.none "k-means||" =
      KMeans.train okCtx mockFrame (Val.list [Val.str "x"]) Val.none
        2 20 0 Val.none "k-means||") ∧
    (KMeansModel.mk okCtx (Val.list [Val.str "x"])
        (Val.list (List.replicate (Int.toNat 2) (Val.int 1))) mockScalaModel)._scalings =
      Val.list (List.replicate (Int.toNat 2) (Val.int 1)) :=
  ⟨(claim_C9_empty_scalings_like_none okCtx mockFrame (Val.list [Val.str "x"])
      2 20 0 Val.none "k-means||").1,
   (claim_C9_empty_scalings_like_none okCtx mockFrame (Val.list [Val.str "x"])
      2 20 0 Val.none "k-means||").2 _ rfl⟩

/-- Claim C5: the `k`, `max_iterations` and `initialization_mode`
properties return exactly the engine's answer to the corresponding
zero-argument query, and when the engine's `centroids()` answer is a
sequence of vectors the `centroids` property returns it converted to a
native list of lists. -/
theorem claim_C5_engine_properties (m : KMeansModel) (rows : List (List Val)) :
    (KMeansModel.k m).1 = m._scala.k () ∧
    (KMeansModel.max_iterations m).1 = m._scala.maxIterations () ∧
    (KMeansModel.initialization_mode m).1 = m._scala.initializationMode () ∧
    (m._scala.centroids () = Val.vec (rows.map Val.vec) →
      KMeansModel.centroids m = Except.ok (Val.list (rows.map Val.list), m)) := by
  refine ⟨rfl, rfl, rfl, fun h => ?_⟩
  simp [KMeansModel.centroids, h, pyIter, listEach_map_vec,
    Bind.bind, Except.bind, Pure.pure, Except.pure]

/-- Claim C5 witness: on the mock model, whose `centroids()` answer is the
two vectors `[0,1]` and `[2,3]`, the property returns `[[0,1],[2,3]]` and
the scalar properties return the mock's answers. -/
theorem claim_C5_engine_properties_witness :
    (KMeansModel.k mockKM).1 = mockScalaModel.k () ∧
    (KMeansModel.max_iterations mockKM).1 = mockScalaModel.maxIterations () ∧
    (KMeansModel.initialization_mode mockKM).1 =
      mockScalaModel.initializationMode () ∧
    KMeansModel.centroids mockKM =
      Except.ok (Val.list [Val.list [Val.num 0, Val.num 1],
                           Val.list [Val.num 2, Val.num 3]], mockKM) := by
  obtain ⟨h1, h2, h3, h4⟩ :=
    claim_C5_engine_properties mockKM [[Val.num 0, Val.num 1], [Val.num 2, Val.num 3]]
  exact ⟨h1, h2, h3, h4 rfl⟩

/-- Claim C6: a successful `train` returns a handle wrapping the engine's
model reference together with the original columns and the
supplied-or-defaulted scalings; the `columns` and `scalings` properties
return exactly those cached values, and do not depend on the engine model
(replacing the engine model inside the handle leaves them unchanged). -/
theorem claim_C6_handle_caches_choices (ctx : TkContext) (f : Frame)
    (cols scal : Val) (k mi : Int) (eps : Rat) (seed : Val) (im : String)
    (m : KMeansModel)
    (h : KMeans.train ctx f cols scal k mi eps seed im = Except.ok m) :
    m._context = ctx ∧
    (KMeansModel.columns m).1 = cols ∧
    (KMeansModel.scalings m).1 = (if pyTruthy scal then scal
      else Val.list (List.replicate k.toNat (Val.int 1))) ∧
    (∃ sc ss sv, to_scala_vector_string cols = Except.ok sc ∧
      to_scala_vector_double (if pyTruthy scal then scal
        else Val.list (List.replicate k.toNat (Val.int 1))) = Except.ok ss ∧
      seedToLong seed = Except.ok sv ∧
      ctx.jvmKMeans.train f._scala sc ss k mi eps (to_scala_option sv) im =
        Except.ok m._scala) ∧
    (∀ sm, (KMeansModel.columns
        (KMeansModel.mk m._context m._columns m._scalings sm)).1 =
      (KMeansModel.columns m).1) ∧
    (∀ sm, (KMeansModel.scalings
        (KMeansModel.mk m._context m._columns m._scalings sm)).1 =
      (KMeansModel.scalings m).1) := by
  obtain ⟨hc, hcol, hs, hrest⟩ :=
    train_ok_fields ctx f cols scal k mi eps seed im m h
  exact ⟨hc, hcol, hs, hrest, fun _ => rfl, fun _ => rfl⟩

/-- Claim C6 witness: a concrete successful training call caches the
supplied columns and scalings in the returned handle. -/
theorem claim_C6_handle_caches_choices_witness :
    (KMeansModel.columns (KMeansModel.mk okCtx (Val.list [Val.str "x"])
        (Val.list [Val.num 2]) mockScalaModel)).1 = Val.list [Val.str "x"] :=
  (claim_C6_handle_caches_choices okCtx mockFrame (Val.list [Val.str "x"])
      (Val.list [Val.num 2]) 2 20 0 Val.none "k-means||" _ rfl).2.1

/-- Claim C8: the handle is immutable — each property access and each of
the four operations leaves the handle exactly as it was (the state
returned alongside any successful result is the original handle, with all
its cached fields). -/
theorem claim_C8_handle_immutable (m : KMeansModel) (f : Frame) (c v : Val)
    (m' : KMeansModel) :
    ((KMeansModel.columns m).2 = m) ∧
    ((KMeansModel.scalings m).2 = m) ∧
    ((KMeansModel.k m).2 = m) ∧
    ((KMeansModel.max_iterations m).2 = m) ∧
    ((KMeansModel.initialization_mode m).2 = m) ∧
    (KMeansModel.centroids m = Except.ok (v, m') → m' = m) ∧
    (KMeansModel.compute_sizes m f c = Except.ok (v, m') → m' = m) ∧
    (KMeansModel.compute_wsse m f c = Except.ok (v, m') → m' = m) ∧
    (KMeansModel.predict m f c = Except.ok (v, m') → m' = m) ∧
    (KMeansModel.add_distance_columns m f c = Except.ok (v, m') → m' = m) := by
  refine ⟨rfl, rfl, rfl, rfl, rfl, ?_, ?_, ?_, ?_, ?_⟩
  · intro h
    simp only [KMeansModel.centroids] at h
    obtain ⟨items, -, h⟩ := except_bind_ok _ _ _ h
    obtain ⟨xs, -, h⟩ := except_bind_ok _ _ _ h
    simp only [Pure.pure, Except.pure, Except.ok.injEq, Prod.mk.injEq] at h
    exact h.2.symm
  · intro h
    simp only [KMeansModel.compute_sizes] at h
    obtain ⟨r, -, h⟩ := except_bind_ok _ _ _ h
    obtain ⟨items, -, h⟩ := except_bind_ok _ _ _ h
    obtain ⟨xs, -, h⟩ := except_bind_ok _ _ _ h
    simp only [Pure.pure, Except.pure, Except.ok.injEq, Prod.mk.injEq] at h
    exact h.2.symm
  · intro h
    simp only [KMeansModel.compute_wsse] at h
    obtain ⟨r, -, h⟩ := except_bind_ok _ _ _ h
    simp only [Pure.pure, Except.pure, Except.ok.injEq, Prod.mk.injEq] at h
    exact h.2.symm
  · intro h
    simp only [KMeansModel.predict] at h
    obtain ⟨cols, -, h⟩ := except_bind_ok _ _ _ h
    obtain ⟨r, -, h⟩ := except_bind_ok _ _ _ h
    simp only [Pure.pure, Except.pure, Except.ok.injEq, Prod.mk.injEq] at h
    exact h.2.symm
  · intro h
    simp only [KMeansModel.add_distance_columns] at h
    obtain ⟨cols, -, h⟩ := except_bind_ok _ _ _ h
    obtain ⟨r, -, h⟩ := except_bind_ok _ _ _ h
    simp only [Pure.pure, Except.pure, Except.ok.injEq, Prod.mk.injEq] at h
    exact h.2.symm

/-- Claim C8 witness: on the mock handle, a concrete `compute_wsse` call
and a concrete property access both leave the handle unchanged. -/
theorem claim_C8_handle_immutable_witness :
    ((KMeansModel.columns mockKM).2 = mockKM) ∧
    (KMeansModel.compute_wsse mockKM mockFrame Val.none =
        Except.ok (Val.opt Option.none, mockKM) →
      mockKM = mockKM) :=
  ⟨(claim_C8_handle_immutable mockKM mockFrame Val.none
      (Val.opt Option.none) mockKM).1,
   (claim_C8_handle_immutable mockKM mockFrame Val.none
      (Val.opt Option.none) mockKM).2.2.2.2.2.2.2.1⟩

/-- Claim C10: `predict` and `add_distance_columns` return Python `None`
whenever they succeed, while `compute_sizes` converts each count of the
engine's response to a native int and returns the list. -/
theorem claim_C10_return_values (m : KMeansModel) (f : Frame) (c v : Val)
    (m' : KMeansModel) (ns : List Int) :
    (KMeansModel.predict m f c = Except.ok (v, m') → v = Val.none) ∧
    (KMeansModel.add_distance_columns m f c = Except.ok (v, m') → v = Val.none) ∧
    (m._scala.computeClusterSizes f._scala (to_scala_option c) =
        Except.ok (Val.vec (ns.map Val.long)) →
      KMeansModel.compute_sizes m f c =
        Except.ok (Val.list (ns.map Val.int), m)) := by
  refine ⟨?_, ?_, ?_⟩
  · intro h
    simp only [KMeansModel.predict] at h
    obtain ⟨cols, -, h⟩ := except_bind_ok _ _ _ h
    obtain ⟨r, -, h⟩ := except_bind_ok _ _ _ h
    simp only [Pure.pure, Except.pure, Except.ok.injEq, Prod.mk.injEq] at h
    exact h.1.symm
  · intro h
    simp only [KMeansModel.add_distance_columns] at h
    obtain ⟨cols, -, h⟩ := except_bind_ok _ _ _ h
    obtain ⟨r, -, h⟩ := except_bind_ok _ _ _ h
    simp only [Pure.pure, Except.pure, Except.ok.injEq, Prod.mk.injEq] at h
    exact h.1.symm
  · intro h
    simp [KMeansModel.compute_sizes, h, pyIter, intList_map_long,
      Bind.bind, Except.bind, Pure.pure, Except.pure]

/-- Claim C10 witness: on the mock engine (whose `computeClusterSizes`
answers with the longs 4 and 5), `compute_sizes` returns the native ints
`[4, 5]`, and a concrete successful `predict` returns `None`. -/
theorem claim_C10_return_values_witness :
    KMeansModel.compute_sizes mockKM mockFrame Val.none =
      Except.ok (Val.list [Val.int 4, Val.int 5], mockKM) ∧
    (KMeansModel.predict mockKM mockFrame Val.none =
        Except.ok (Val.none, mockKM) →
      Val.none = Val.none) :=
  ⟨(claim_C10_return_values mockKM mockFrame Val.none Val.none mockKM [4, 5]).2.2
      rfl,
   (claim_C10_return_values mockKM mockFrame Val.none Val.none mockKM [4, 5]).1⟩

/-- Claim C7: when the engine call fails, `train` and each of the four
model operations raise exactly that failure, unmodified — and a failed
`train` produces no model handle (its result is the error, not a
handle). -/
theorem claim_C7_errors_propagate :
    (∀ (ctx : TkContext) (f : Frame) (cols scal : Val) (k mi : Int)
        (eps : Rat) (seed : Val) (im : String) (sc ss sv : Val) (e : Err),
      to_scala_vector_string cols = Except.ok sc →
      to_scala_vector_double (if pyTruthy scal then scal
        else Val.list (List.replicate k.toNat (Val.int 1))) = Except.ok ss →
      seedToLong seed = Except.ok sv →
      ctx.jvmKMeans.train f._scala sc ss k mi eps (to_scala_option sv) im =
        Except.error e →
      KMeans.train ctx f cols scal k mi eps seed im = Except.error e) ∧
    (∀ (m : KMeansModel) (f : Frame) (c : Val) (e : Err),
      m._scala.computeClusterSizes f._scala (to_scala_option c) =
        Except.error e →
      KMeansModel.compute_sizes m f c = Except.error e) ∧
    (∀ (m : KMeansModel) (f : Frame) (c : Val) (e : Err),
      m._scala.computeCost f._scala (to_scala_option c) = Except.error e →
      KMeansModel.compute_wsse m f c = Except.error e) ∧
    (∀ (m : KMeansModel) (f : Frame) (c c' : Val) (e : Err),
      marshalColumns c = Except.ok c' →
      m._scala.predict f._scala (to_scala_option c') = Except.error e →
      KMeansModel.predict m f c = Except.error e) ∧
    (∀ (m : KMeansModel) (f : Frame) (c c' : Val) (e : Err),
      marshalColumns c = Except.ok c' →
      m._scala.addDistanceColumns f._scala (to_scala_option c') =
        Except.error e →
      KMeansModel.add_distance_columns m f c = Except.error e) := by
  refine ⟨?_, ?_, ?_, ?_, ?_⟩
  · intro ctx f cols scal k mi eps seed im sc ss sv e h1 h2 h3 h4
    simp [KMeans.train, h1, h2, h3, h4, Bind.bind, Except.bind]
  · intro m f c e h
    simp [KMeansModel.compute_sizes, h, Bind.bind, Except.bind]
  · intro m f c e h
    simp [KMeansModel.compute_wsse, h, Bind.bind, Except.bind]
  · intro m f c c' e h1 h2
    simp [KMeansModel.predict, h1, h2, Bind.bind, Except.bind]
  · intro m f c c' e h1 h2
    simp [KMeansModel.add_distance_columns, h1, h2, Bind.bind, Except.bind]

/-- Claim C7 witness: with a failing mock engine, a concrete `train` call
and concrete calls of the four operations each surface the engine's exact
error. -/
theorem claim_C7_errors_propagate_witness :
    KMeans.train failCtx mockFrame (Val.list [Val.str "x"])
        (Val.list [Val.num 1]) 2 20 0 Val.none "k-means||" =
      Except.error (Err.engineErr 10) ∧
    KMeansModel.compute_sizes failKM mockFrame Val.none =
      Except.error (Err.engineErr 11) ∧
    KMeansModel.compute_wsse failKM mockFrame Val.none =
      Except.error (Err.engineErr 12) ∧
    KMeansModel.predict failKM mockFrame Val.none =
      Except.error (Err.engineErr 13) ∧
    KMeansModel.add_distance_columns failKM mockFrame Val.none =
      Except.error (Err.engineErr 14) :=
  ⟨claim_C7_errors_propagate.1 failCtx mockFrame (Val.list [Val.str "x"])
      (Val.list [Val.num 1]) 2 20 0 Val.none "k-means||"
      (Val.vecString ["x"]) (Val.vecDouble [1]) Val.none
      (Err.engineErr 10) rfl rfl rfl rfl,
   claim_C7_errors_propagate.2.1 failKM mockFrame Val.none
      (Err.engineErr 11) rfl,
   claim_C7_errors_propagate.2.2.1 failKM mockFrame Val.none
      (Err.engineErr 12) rfl,
   claim_C7_errors_propagate.2.2.2.1 failKM mockFrame Val.none Val.none
      (Err.engineErr 13) rfl rfl,
   claim_C7_errors_propagate.2.2.2.2 failKM mockFrame Val.none Val.none
      (Err.engineErr 14) rfl rfl⟩

/-- Claim C4: `train` forwards `k`, `max_iter`, `epsilon` and `init_mode`
to the engine unchanged, columns as a string vector, scalings as a double
vector, a `None` seed as the empty option and a non-`None` seed as an
option wrapping `long(seed)` — for every `k`, `max_iter`, `epsilon` and
`init_mode` whatsoever, i.e. with no local validation. -/
theorem claim_C4_train_marshaling (ctx : TkContext) (f : Frame)
    (names : List String) (qs : List Rat) (k mi : Int) (eps : Rat)
    (sn : Int) (sq : Rat) (im : String) (hq : qs ≠ []) :
    (KMeans.train ctx f (Val.list (names.map Val.str))
        (Val.list (qs.map Val.num)) k mi eps Val.none im = (do
      let sm ← ctx.jvmKMeans.train f._scala (Val.vecString names)
          (Val.vecDouble qs) k mi eps (Val.opt Option.none) im
      pure (KMeansModel.mk ctx (Val.list (names.map Val.str))
          (Val.list (qs.map Val.num)) sm))) ∧
    (KMeans.train ctx f (Val.list (names.map Val.str))
        (Val.list (qs.map Val.num)) k mi eps (Val.int sn) im = (do
      let sm ← ctx.jvmKMeans.train f._scala (Val.vecString names)
          (Val.vecDouble qs) k mi eps
          (Val.opt (Option.some (Val.long sn))) im
      pure (KMeansModel.mk ctx (Val.list (names.map Val.str))
          (Val.list (qs.map Val.num)) sm))) ∧
    (KMeans.train ctx f (Val.list (names.map Val.str))
        (Val.list (qs.map Val.num)) k mi eps (Val.num sq) im = (do
      let sm ← ctx.jvmKMeans.train f._scala (Val.vecString names)
          (Val.vecDouble qs) k mi eps
          (Val.opt (Option.some (Val.long (ratTrunc sq)))) im
      pure (KMeansModel.mk ctx (Val.list (names.map Val.str))
          (Val.list (qs.map Val.num)) sm))) := by
  have ht : pyTruthy (Val.list (qs.map Val.num)) = true := by
    cases qs with
    | nil => exact absurd rfl hq
    | cons a t => rfl
  refine ⟨?_, ?_, ?_⟩ <;>
    simp [KMeans.train, ht, to_scala_vector_string, to_scala_vector_double,
      strList_map, ratList_map, seedToLong, Val.isNone, pyLongFn,
      to_scala_option, Bind.bind, Except.bind, Pure.pure, Except.pure]

/-- Claim C4 witness: a concrete call with columns `["x"]`, scalings
`[2]`, `k = 5`, `max_iter = 7`, `epsilon = 0`, seed `9` and the default
init mode forwards exactly those values (seed as `long 9` in an option). -/
theorem claim_C4_train_marshaling_witness :
    KMeans.train okCtx mockFrame (Val.list (["x"].map Val.str))
        (Val.list (([2] : List Rat).map Val.num)) 5 7 0 (Val.int 9)
        "k-means||" = (do
      let sm ← okCtx.jvmKMeans.train mockFrame._scala (Val.vecString ["x"])
          (Val.vecDouble [2]) 5 7 0 (Val.opt (Option.some (Val.long 9)))
          "k-means||"
      pure (KMeansModel.mk okCtx (Val.list (["x"].map Val.str))
          (Val.list (([2] : List Rat).map Val.num)) sm)) :=
  (claim_C4_train_marshaling okCtx mockFrame ["x"] [2] 5 7 0 9 0
      "k-means||" (by simp)).2.1

/-- Claim C1 counterexample: the claim fails for `compute_wsse` (and
likewise `compute_sizes`): with the echoing mock engine and the non-`None`
columns list `["a"]`, the value forwarded to the engine — and echoed back —
is the raw Python list wrapped in an option, not the vector-of-strings
wrapped in an option, and the call's result differs from the one the
claimed marshalling would produce. -/
theorem claim_C1_counterexample_raw_list_forwarded :
    KMeansModel.compute_wsse mockKM mockFrame (Val.list [Val.str "a"]) =
      Except.ok (Val.opt (Option.some (Val.list [Val.str "a"])), mockKM) ∧
    KMeansModel.compute_wsse mockKM mockFrame (Val.list [Val.str "a"]) ≠
      Except.ok (Val.opt (Option.some (Val.vecString ["a"])), mockKM) := by
  refine ⟨rfl, ?_⟩
  intro h
  injection h with h1
  injection h1 with h2 h3
  injection h2 with h4
  injection h4 with h5
  exact Val.noConfusion h5

/-- Claim C1 as amended: `predict` and `add_distance_columns` translate a
non-`None` columns list to the engine's vector of strings and wrap that
vector in the engine's optional value; `compute_sizes` and `compute_wsse`
instead wrap the raw, untranslated columns value directly in the engine's
optional value. -/
theorem claim_C1_amended_marshaling (m : KMeansModel) (f : Frame)
    (names : List String) (c : Val) :
    (c.isNone = false →
      KMeansModel.compute_sizes m f c = (do
        let r ← m._scala.computeClusterSizes f._scala
            (Val.opt (Option.some c))
        let items ← pyIter r
        let xs ← intList items
        pure (Val.list xs, m))) ∧
    (c.isNone = false →
      KMeansModel.compute_wsse m f c = (do
        let r ← m._scala.computeCost f._scala (Val.opt (Option.some c))
        pure (r, m))) ∧
    (KMeansModel.predict m f (Val.list (names.map Val.str)) = (do
        let _ ← m._scala.predict f._scala
            (Val.opt (Option.some (Val.vecString names)))
        pure (Val.none, m))) ∧
    (KMeansModel.add_distance_columns m f (Val.list (names.map Val.str)) = (do
        let _ ← m._scala.addDistanceColumns f._scala
            (Val.opt (Option.some (Val.vecString names)))
        pure (Val.none, m))) := by
  refine ⟨?_, ?_, ?_, ?_⟩
  · intro hc
    simp only [KMeansModel.compute_sizes, to_scala_option_not_none c hc]
  · intro hc
    simp only [KMeansModel.compute_wsse, to_scala_option_not_none c hc]
  · simp [KMeansModel.predict, marshalColumns, Val.isNone,
      to_scala_vector_string, strList_map, to_scala_option,
      Bind.bind, Except.bind, Pure.pure, Except.pure]
  · simp [KMeansModel.add_distance_columns, marshalColumns, Val.isNone,
      to_scala_vector_string, strList_map, to_scala_option,
      Bind.bind, Except.bind, Pure.pure, Except.pure]

/-- Claim C1 (amended) witness: at the concrete columns list `["a"]`,
`compute_wsse` forwards the raw list in an option while `predict` forwards
the string vector in an option. -/
theorem claim_C1_amended_marshaling_witness :
    (KMeansModel.compute_wsse mockKM mockFrame (Val.list [Val.str "a"]) = (do
        let r ← mockKM._scala.computeCost mockFrame._scala
            (Val.opt (Option.some (Val.list [Val.str "a"])))
        pure (r, mockKM))) ∧
    (KMeansModel.predict mockKM mockFrame (Val.list (["a"].map Val.str)) = (do
        let _ ← mockKM._scala.predict mockFrame._scala
            (Val.opt (Option.some (Val.vecString ["a"])))
        pure (Val.none, mockKM))) :=
  ⟨(claim_C1_amended_marshaling mockKM mockFrame ["a"]
      (Val.list [Val.str "a"])).2.1 rfl,
   (claim_C1_amended_marshaling mockKM mockFrame ["a"]
      (Val.list [Val.str "a"])).2.2.1⟩
